import Mathlib

/-!
Verification of the LSMS internship-tracking portal's approval and
notification workflow core, shallowly embedded from the JavaScript source
(`routes/admin.js`, `routes/Users.js`, `routes/auth.js` = `src/unnamed/part_002`,
`routes/superadmin.js` = tail of `src/unnamed/part_004`,
`utils/notifications.js` = middle of `src/tailwind.config.js`).

SQL tables are modelled as Lean lists of records; each route handler becomes a
pure function from the relevant table state (plus request data) to the new
state and the HTTP response data.  `bcrypt` hashes are modelled abstractly:
the stored `password` field holds the value `bcrypt.compare` succeeds on, and
`validHash` models the `startsWith('$2b$')` format check.  Fallible inserts
are modelled by explicit success oracles (`stmtOk`, `notifyOk`, `emailOk`);
a statement executed outside an open transaction autocommits, exactly as the
`pg` pool behaves for a bare `client.query`/`pool.query`.
-/

namespace LSMS

/-- A row of the `users` table, restricted to the columns the approval
workflow reads or writes (`routes/auth.js` INSERT, `routes/admin.js`
approve/reject UPDATEs). -/
structure UserRec where
  user_id : Nat
  email : String
  password : String
  /-- models `password.startsWith('$2b$')` -/
  validHash : Bool
  is_approved : Bool
  approval_status : String
  rejection_reason : Option String
  approved_by : Option Nat
  approved_at : Option Nat
deriving Repr, DecidableEq

/-- The `users` row created by `POST /register`
(`routes/auth.js`, INSERT at lines 144-167 of `src/unnamed/part_002`):
`is_approved` column is `FALSE` and `approval_status` is `'pending'`. -/
def registeredUser (uid : Nat) (email password : String) : UserRec :=
  { user_id := uid
    email := email
    password := password
    validHash := true
    is_approved := false
    approval_status := "pending"
    rejection_reason := none
    approved_by := none
    approved_at := none }

/-- Outcome of an approve/reject route: resulting `users` table, HTTP status,
whether `sendApprovalNotification` was invoked, and whether that email send
succeeded (the route catches a failure and ignores it). -/
structure UserActionResult where
  db : List UserRec
  status : Nat
  emailAttempted : Bool
  emailSent : Bool
deriving Repr, DecidableEq

/-- Predicate of the guard SELECT in `PUT /approve-user/:userId` and
`DELETE /reject-user/:userId` (`routes/admin.js` 1337-1341, 1402-1406):
`WHERE user_id = $1 AND approval_status = 'pending'`. -/
def pendingMatch (uid : Nat) (u : UserRec) : Bool :=
  u.user_id == uid && u.approval_status == "pending"

/-- `PUT /approve-user/:userId` (`routes/admin.js` 1327-1388).
Selects the pending row; if none, ROLLBACK and 404 ("User not found or
already processed").  Otherwise runs
`UPDATE users SET is_approved = TRUE, approval_status = 'approved',
approved_by = $1, approved_at = NOW() WHERE user_id = $2`, commits, then
attempts the approval email inside its own try/catch (failure ignored),
and responds 200. `emailOk` is the email transport oracle, `now` models
`NOW()`. -/
def approveUser (db : List UserRec) (uid adminId : Nat) (emailOk : Bool)
    (now : Nat) : UserActionResult :=
  match db.find? (pendingMatch uid) with
  | none => { db := db, status := 404, emailAttempted := false, emailSent := false }
  | some _ =>
      { db := db.map (fun u =>
          if u.user_id == uid then
            { u with is_approved := true
                     approval_status := "approved"
                     approved_by := some adminId
                     approved_at := some now }
          else u)
        status := 200
        emailAttempted := true
        emailSent := emailOk }

/-- `DELETE /reject-user/:userId` (`routes/admin.js` 1391-1458).
Same pending guard; on `deleteUser` the row is hard-deleted, otherwise
`UPDATE users SET approval_status = 'rejected', rejection_reason = $1,
approved_by = $2, approved_at = NOW() WHERE user_id = $3` (note:
`is_approved` is not touched by this UPDATE). Commit, then the rejection
email in its own try/catch, then 200. -/
def rejectUser (db : List UserRec) (uid adminId : Nat) (reason : Option String)
    (deleteUser : Bool) (emailOk : Bool) (now : Nat) : UserActionResult :=
  match db.find? (pendingMatch uid) with
  | none => { db := db, status := 404, emailAttempted := false, emailSent := false }
  | some _ =>
      if deleteUser then
        { db := db.filter (fun u => !(u.user_id == uid))
          status := 200
          emailAttempted := true
          emailSent := emailOk }
      else
        { db := db.map (fun u =>
            if u.user_id == uid then
              { u with approval_status := "rejected"
                       rejection_reason := reason
                       approved_by := some adminId
                       approved_at := some now }
            else u)
          status := 200
          emailAttempted := true
          emailSent := emailOk }

/-- The spec's data-model invariant for an intern row:
`is_approved == true ⇔ approval_status == 'approved'`. -/
def approvalInvariant (u : UserRec) : Prop :=
  u.is_approved = true ↔ u.approval_status = "approved"

instance (u : UserRec) : Decidable (approvalInvariant u) := by
  unfold approvalInvariant; infer_instance

/-- A row of the `admins` table as read by `POST /login`
(`routes/auth.js`, lines 220-237 of `src/unnamed/part_002`). -/
structure AdminRec where
  admin_id : Nat
  email : String
  password : String
  /-- models `password.startsWith('$2b$')` -/
  validHash : Bool
  role : String
deriving Repr, DecidableEq

/-- The server-side session record written on a successful login. -/
structure SessionRec where
  user_id : Nat
  role : String
deriving Repr, DecidableEq

/-- Response of `POST /login`: HTTP status, the session created (if any),
and the distinguished `status` flag of the pending-approval 403 body. -/
structure LoginResult where
  status : Nat
  session : Option SessionRec
  statusFlag : Option String
deriving Repr, DecidableEq

/-- The intern half of `POST /login` (`routes/auth.js` 239-276 of
`src/unnamed/part_002`), reached when no admin authenticated: look up the
user by email; invalid stored hash format → 403; password mismatch falls
through to the final 401; a verified intern with
`!is_approved || approval_status !== 'approved'` gets 403 with body flag
`status: 'pending_approval'` and no session; otherwise a session with role
`'intern'` is stored. -/
def internLoginBranch (users : List UserRec) (email passwords : String) :
    LoginResult :=
  match users.find? (fun u => u.email == email) with
  | some u =>
      if u.validHash then
        if u.password == passwords then
          if !u.is_approved || u.approval_status != "approved" then
            { status := 403, session := none, statusFlag := some "pending_approval" }
          else
            { status := 200
              session := some { user_id := u.user_id, role := "intern" }
              statusFlag := none }
        else
          { status := 401, session := none, statusFlag := none }
      else
        { status := 403, session := none, statusFlag := none }
  | none => { status := 401, session := none, statusFlag := none }

/-- `POST /login` (`routes/auth.js` 205-306 of `src/unnamed/part_002`):
the admin lookup runs first; an admin row with an invalid hash format is an
immediate 403; a verified admin gets a session with the admin's stored role;
an admin whose password does not match falls through to the intern branch,
as does an absent admin row. -/
def login (admins : List AdminRec) (users : List UserRec)
    (email passwords : String) : LoginResult :=
  match admins.find? (fun a => a.email == email) with
  | some a =>
      if a.validHash then
        if a.password == passwords then
          { status := 200
            session := some { user_id := a.admin_id, role := a.role }
            statusFlag := none }
        else
          internLoginBranch users email passwords
      else
        { status := 403, session := none, statusFlag := none }
  | none => internLoginBranch users email passwords

/-- A row of the `notifications` table, restricted to the columns the
mark-as-read routes touch. -/
structure NotifRow where
  notification_id : Nat
  recipient_id : Nat
  recipient_role : String
  is_read : Bool
deriving Repr, DecidableEq

/-- Match predicate of the single-notification UPDATE:
`WHERE notification_id = $1 AND recipient_id = $2 AND recipient_role = r`. -/
def notifMatch (nid callerId : Nat) (role : String) (n : NotifRow) : Bool :=
  n.notification_id == nid && n.recipient_id == callerId && n.recipient_role == role

/-- Shared shape of `PUT /users/notifications/:id/read` and
`PUT /api/admin/notifications/:id/read`: run
`UPDATE notifications SET is_read = TRUE WHERE notification_id = $1 AND
recipient_id = $2 AND recipient_role = r RETURNING ...`; if `rowCount` is 0
respond 404, else 200.  First component is the table after the UPDATE. -/
def markNotificationRead (db : List NotifRow) (nid callerId : Nat)
    (role : String) : List NotifRow × Nat :=
  if db.countP (notifMatch nid callerId role) == 0 then (db, 404)
  else (db.map (fun n =>
    if notifMatch nid callerId role n then { n with is_read := true } else n), 200)

/-- `PUT /users/notifications/:id/read` (`routes/Users.js` 951-979):
recipient_role fixed to `'user'`, recipient_id taken from the session. -/
def markUserNotificationRead (db : List NotifRow) (nid userId : Nat) :
    List NotifRow × Nat :=
  markNotificationRead db nid userId "user"

/-- `PUT /api/admin/notifications/:id/read` (`routes/admin.js` 534-564):
recipient_role fixed to `'admin'`, recipient_id is the session admin id. -/
def markAdminNotificationRead (db : List NotifRow) (nid adminId : Nat) :
    List NotifRow × Nat :=
  markNotificationRead db nid adminId "admin"

/-- `PUT /users/notifications/mark-all-read` (`routes/Users.js` 982-1007):
`UPDATE notifications SET is_read = true WHERE recipient_id = $1 AND
recipient_role = 'user' AND is_read = false`; always responds success. -/
def markAllUserNotificationsRead (db : List NotifRow) (userId : Nat) :
    List NotifRow :=
  db.map (fun n =>
    if n.recipient_id == userId && n.recipient_role == "user" && n.is_read == false
    then { n with is_read := true } else n)

/-- The admin loop of `sendNotificationToAdmin` (`routes/Users.js` 87-97):
`for (const admin of adminResult.rows) { await createNotification({...}) }`.
`ok a` is the success oracle of the `createNotification` INSERT for admin
`a`; each INSERT autocommits (`pool.query`, no transaction).  Returns the
admins whose notification was persisted and whether an exception escaped the
loop.  A rejected `await` aborts the loop, so admins after the first failure
are never reached. -/
def notifyAdminsLoop (admins : List Nat) (ok : Nat → Bool) :
    List Nat × Bool :=
  match admins with
  | [] => ([], false)
  | a :: rest =>
      if ok a then
        let r := notifyAdminsLoop rest ok
        (a :: r.1, r.2)
      else ([], true)

/-- Result of `sendNotificationToAdmin`: the set of admins whose notification
row was persisted, and whether an error propagated to the caller. -/
structure FanOutResult where
  notified : List Nat
  thrown : Bool
deriving Repr, DecidableEq

/-- `sendNotificationToAdmin` (`routes/Users.js` 34-103): the whole body —
admin lookup, sender lookup, message construction, and the per-admin
`createNotification` loop — sits inside one try/catch whose catch only logs,
so no error ever reaches the caller; but there is no per-iteration handling,
so one failing INSERT abandons the rest of the loop. -/
def sendNotificationToAdmin (admins : List Nat) (ok : Nat → Bool) :
    FanOutResult :=
  { notified := (notifyAdminsLoop admins ok).1, thrown := false }

/-- A row of the `messages` table (broadcast). -/
structure MessageRow where
  id : Nat
  title : String
  body : String
  created_by : Nat
deriving Repr, DecidableEq

/-- A `notifications` row as inserted by the broadcast loop
(`routes/admin.js` 633-644). -/
structure BroadcastNotifRow where
  recipient_id : Nat
  recipient_role : String
  sender_id : Nat
  message : String
  link : String
  is_read : Bool
deriving Repr, DecidableEq

/-- The two tables `POST /api/admin/send-notification` writes. -/
structure BroadcastDb where
  messages : List MessageRow
  notifications : List BroadcastNotifRow
deriving Repr, DecidableEq

/-- The notification row the broadcast loop inserts for one intern. -/
def broadcastNotifRow (internId senderId msgId : Nat) (title : String) :
    BroadcastNotifRow :=
  { recipient_id := internId
    recipient_role := "user"
    sender_id := senderId
    message := "New message: " ++ title
    link := "/user_dashboard.html#messages?id=" ++ toString msgId
    is_read := false }

/-- The per-intern INSERT loop of the broadcast route (`routes/admin.js`
633-644).  `idx` numbers the SQL statements of the route (the message INSERT
is statement 0); `stmtOk` is the per-statement success oracle.  Each INSERT
autocommits — the route never issues BEGIN — so rows inserted before a
failure stay persisted; the failing statement throws, ending the loop. -/
def broadcastNotifLoop (db : BroadcastDb) (senderId msgId : Nat)
    (title : String) (interns : List Nat) (idx : Nat) (stmtOk : Nat → Bool) :
    BroadcastDb × Bool :=
  match interns with
  | [] => (db, true)
  | i :: rest =>
      if stmtOk idx then
        broadcastNotifLoop
          { db with notifications :=
              db.notifications ++ [broadcastNotifRow i senderId msgId title] }
          senderId msgId title rest (idx + 1) stmtOk
      else (db, false)

/-- `POST /api/admin/send-notification` with `action = 'broadcast_message'`
(`routes/admin.js` 597-654).  Validation 400s; then the message INSERT
(statement 0, `RETURNING id` modelled as the next serial id), then the
intern SELECT, then one notification INSERT per intern (statements 1..N).
There is no BEGIN/COMMIT anywhere in the route: every INSERT autocommits,
and a thrown statement lands in the catch block, which responds 500 without
undoing anything. -/
def sendNotificationBroadcast (db : BroadcastDb) (action title body : String)
    (senderId : Nat) (interns : List Nat) (stmtOk : Nat → Bool) :
    BroadcastDb × Nat :=
  if action != "broadcast_message" then (db, 400)
  else if title == "" || body == "" then (db, 400)
  else if stmtOk 0 then
    let msgId := db.messages.length + 1
    let db1 := { db with messages :=
      db.messages ++ [{ id := msgId, title := title, body := body, created_by := senderId }] }
    let r := broadcastNotifLoop db1 senderId msgId title interns 1 stmtOk
    if r.2 then (r.1, 200) else (r.1, 500)
  else (db, 500)

/-- One observable database/notification action of a submission route, in
program order. -/
inductive DbEvent where
  | beginTx
  | insertPrimary (table : String)
  | notifyAdmins
  | commitTx
deriving Repr, DecidableEq

/-- Statement order of the happy path of `POST /users/submit-complaint-suggestion`
(`routes/Users.js` 274-302): BEGIN; INSERT INTO complaints_suggestions;
`await sendNotificationToAdmin(...)`; COMMIT. -/
def submitComplaintSuggestionEvents : List DbEvent :=
  [.beginTx, .insertPrimary "complaints_suggestions", .notifyAdmins, .commitTx]

/-- Statement order of the happy path of `POST /users/submit-leave-request`
(`routes/Users.js` 727-752): BEGIN; INSERT INTO leave_requests;
`await sendNotificationToAdmin(...)`; COMMIT. -/
def submitLeaveRequestEvents : List DbEvent :=
  [.beginTx, .insertPrimary "leave_requests", .notifyAdmins, .commitTx]

/-- Statement order of the happy path of `POST /users/upload-project-file`
(`routes/Users.js` 583-606): BEGIN; INSERT INTO user_projects;
`await sendNotificationToAdmin(...)`; COMMIT. -/
def uploadProjectFileEvents : List DbEvent :=
  [.beginTx, .insertPrimary "user_projects", .notifyAdmins, .commitTx]

/-- Statement order of the happy path of `POST /users/submit-logbook-report`
(`routes/Users.js` 160-243): a single INSERT with no transaction and no call
to `sendNotificationToAdmin` anywhere in the route. -/
def submitLogbookReportEvents : List DbEvent :=
  [.insertPrimary "logbook_reports"]

/-- Outcome of a review route: whether the primary UPDATE was durably
applied (autocommitted), and the HTTP status returned. -/
structure ReviewResult where
  committed : Bool
  status : Nat
deriving Repr, DecidableEq

/-- `PATCH /api/admin/logbooks/:logbookId/grade` (`routes/admin.js` 438-530):
invalid grade → 400 (no write); logbook not found → 404 (no write);
otherwise the grade UPDATE runs on a bare `client.query` (autocommit), then
`await createNotification(...)` with no call-site try/catch: if that INSERT
fails the route's outer catch responds 500 although the grade is already
persisted; if it succeeds, 200. -/
def gradeLogbook (gradeValid found notifyOk : Bool) : ReviewResult :=
  if !gradeValid then { committed := false, status := 400 }
  else if !found then { committed := false, status := 404 }
  else if notifyOk then { committed := true, status := 200 }
  else { committed := true, status := 500 }

/-- `PATCH /api/admin/complaints/:id/review` (`routes/admin.js` 712-769):
missing status → 400; complaint not found → 404; otherwise the review UPDATE
autocommits, then `await createNotification(...)` with no call-site
try/catch: a failure there reaches the outer catch and responds 500. -/
def reviewComplaint (statusGiven found notifyOk : Bool) : ReviewResult :=
  if !statusGiven then { committed := false, status := 400 }
  else if !found then { committed := false, status := 404 }
  else if notifyOk then { committed := true, status := 200 }
  else { committed := true, status := 500 }

/-- `POST /api/admin/update-leave-request-status` (`routes/admin.js`
933-1007): missing fields → 400; leave request not found → 404; otherwise
the status UPDATE autocommits, and then the `createNotification` call at
line 983 reads the identifier `adminId`, which is not defined in this route
(the reviewer id is bound as `reviewerId`), so evaluating the argument
object throws a ReferenceError before the INSERT is even attempted; the
outer catch responds 500 although the UPDATE is already persisted.  The
success response at line 993 is unreachable. -/
def updateLeaveRequestStatus (fieldsPresent found : Bool) : ReviewResult :=
  if !fieldsPresent then { committed := false, status := 400 }
  else if !found then { committed := false, status := 404 }
  else { committed := true, status := 500 }

/-- A row of `logbook_reports` reduced to the duplicate-check key:
the EXTRACT(WEEK)/EXTRACT(YEAR) of `week_date` plus the owner. -/
structure LogbookRow where
  user_id : Nat
  week : Nat
  year : Nat
deriving Repr, DecidableEq

/-- Result of `POST /users/submit-logbook-report`. -/
structure SubmitLogbookResult where
  db : List LogbookRow
  status : Nat
deriving Repr, DecidableEq

/-- `POST /users/submit-logbook-report` (`routes/Users.js` 160-243):
missing fields → 400; Monday at/after 9:00 → 403; invalid reports JSON →
400; then the duplicate check `SELECT 1 FROM logbook_reports WHERE user_id =
$1 AND EXTRACT(WEEK ...) = ... AND EXTRACT(YEAR ...) = ...` — a hit responds
**400** ("You have already submitted a report for this week.") with no
INSERT; otherwise the INSERT runs and the route responds 200. -/
def submitLogbookReport (db : List LogbookRow) (userId week year : Nat)
    (fieldsPresent isMondayAtOrAfter9 reportsValidJson : Bool) :
    SubmitLogbookResult :=
  if !fieldsPresent then { db := db, status := 400 }
  else if isMondayAtOrAfter9 then { db := db, status := 403 }
  else if !reportsValidJson then { db := db, status := 400 }
  else if db.any (fun r => r.user_id == userId && r.week == week && r.year == year) then
    { db := db, status := 400 }
  else
    { db := db ++ [{ user_id := userId, week := week, year := year }], status := 200 }

/-- `Math.ceil(totalCount / limit)` over naturals (`limit ≥ 1`). -/
def jsCeil (total limit : Nat) : Nat := (total + limit - 1) / limit

/-- Response shape of the admin paginated list endpoints
(`GET /api/admin/view-interns` and its siblings). -/
structure PageResult (α : Type) where
  rows : List α
  total_count : Nat
  current_page : Nat
  total_pages : Nat
deriving Repr, DecidableEq

/-- `GET /api/admin/view-interns` (`routes/admin.js` 49-125): `offset =
(page - 1) * limit`, rows via `LIMIT $2 OFFSET $3` over the intern list,
`total_count` from `COUNT(*)`, `total_pages = Math.ceil(totalCount /
limit)`.  The same shape is used by `/interns/:userId/logbooks`,
`/complaints`, `/leave-requests`, `/get-projects` and `/pending-users`. -/
def viewInterns {α : Type} (interns : List α) (page limit : Nat) :
    PageResult α :=
  { rows := (interns.drop ((page - 1) * limit)).take limit
    total_count := interns.length
    current_page := page
    total_pages := jsCeil interns.length limit }

/-- Response shape of `GET /api/superadmin/accounts`: note the count is
returned under `total_items`, not `total_count`. -/
structure AccountsResult (α : Type) where
  users : List α
  total_pages : Nat
  current_page : Nat
  total_items : Nat
deriving Repr, DecidableEq

/-- `GET /api/superadmin/accounts` (`src/unnamed/part_004` 279-306):
`total_pages: Math.max(1, Math.ceil(total / limit))` and the count under
`total_items`. -/
def getAccounts {α : Type} (users : List α) (page limit : Nat) :
    AccountsResult α :=
  { users := (users.drop ((page - 1) * limit)).take limit
    total_pages := max 1 (jsCeil users.length limit)
    current_page := page
    total_items := users.length }

/-! ### Helper lemmas -/

/-- The fan-out loop notifies exactly the longest prefix of admins on which
every `createNotification` INSERT succeeds. -/
theorem notifyAdminsLoop_notified_eq_takeWhile (admins : List Nat)
    (ok : Nat → Bool) : (notifyAdminsLoop admins ok).1 = admins.takeWhile ok := by
  induction admins with
  | nil => rfl
  | cons a rest ih =>
      by_cases h : ok a
      · simp [notifyAdminsLoop, h, List.takeWhile_cons, ih]
      · simp [notifyAdminsLoop, h, List.takeWhile_cons]

/-! ### Claim C2 -/

/-- Counterexample to claim C2 as stated: in the complaint/suggestion
submission route both the admin fan-out and the COMMIT occur, but the
fan-out is invoked at an earlier program point than COMMIT, so it does not
run strictly after the commit. -/
theorem submission_notify_before_commit_counterexample :
    DbEvent.notifyAdmins ∈ submitComplaintSuggestionEvents ∧
    DbEvent.commitTx ∈ submitComplaintSuggestionEvents ∧
    ¬ (submitComplaintSuggestionEvents.findIdx (· == DbEvent.commitTx)
        < submitComplaintSuggestionEvents.findIdx (· == DbEvent.notifyAdmins)) := by
  decide

/-- Claim C2 (corrected): in the complaint/suggestion, leave-request and
project-upload workflows the admin fan-out is invoked after the primary
insert but before COMMIT, inside the transaction window; the logbook-report
workflow performs no admin fan-out at all. -/
theorem submission_notify_inside_transaction_amended :
    (submitComplaintSuggestionEvents.findIdx
        (· == DbEvent.insertPrimary "complaints_suggestions")
      < submitComplaintSuggestionEvents.findIdx (· == DbEvent.notifyAdmins) ∧
     submitComplaintSuggestionEvents.findIdx (· == DbEvent.notifyAdmins)
      < submitComplaintSuggestionEvents.findIdx (· == DbEvent.commitTx) ∧
     DbEvent.commitTx ∈ submitComplaintSuggestionEvents) ∧
    (submitLeaveRequestEvents.findIdx (· == DbEvent.insertPrimary "leave_requests")
      < submitLeaveRequestEvents.findIdx (· == DbEvent.notifyAdmins) ∧
     submitLeaveRequestEvents.findIdx (· == DbEvent.notifyAdmins)
      < submitLeaveRequestEvents.findIdx (· == DbEvent.commitTx) ∧
     DbEvent.commitTx ∈ submitLeaveRequestEvents) ∧
    (uploadProjectFileEvents.findIdx (· == DbEvent.insertPrimary "user_projects")
      < uploadProjectFileEvents.findIdx (· == DbEvent.notifyAdmins) ∧
     uploadProjectFileEvents.findIdx (· == DbEvent.notifyAdmins)
      < uploadProjectFileEvents.findIdx (· == DbEvent.commitTx) ∧
     DbEvent.commitTx ∈ uploadProjectFileEvents) ∧
    DbEvent.notifyAdmins ∉ submitLogbookReportEvents := by
  decide

/-! ### Claim C3 -/

/-- Counterexample to claim C3 as stated: grading a logbook with a failing
notification INSERT leaves the grade committed but responds 500 — the
notification failure is promoted to an error response for the
already-successful primary action. -/
theorem review_notification_failure_promoted_counterexample :
    (gradeLogbook true true false).committed = true ∧
    (gradeLogbook true true false).status = 500 := by
  decide

/-- Claim C3 (corrected): only the user approve/reject routes catch the
post-commit email failure at the call site — their status and resulting
table are independent of the email outcome.  In logbook grading, complaint
review, and leave-request review, a notification failure after the
committed update reaches the route's outer catch and is returned as a 500
(for leave-request review this always happens, since the notification call
reads an undefined `adminId`). -/
theorem review_notification_failure_handling_amended :
    (∀ (db : List UserRec) (uid adminId now : Nat) (emailOk : Bool),
        (approveUser db uid adminId emailOk now).status
          = (approveUser db uid adminId true now).status ∧
        (approveUser db uid adminId emailOk now).db
          = (approveUser db uid adminId true now).db) ∧
    (∀ (db : List UserRec) (uid adminId now : Nat) (reason : Option String)
        (deleteUser emailOk : Bool),
        (rejectUser db uid adminId reason deleteUser emailOk now).status
          = (rejectUser db uid adminId reason deleteUser true now).status ∧
        (rejectUser db uid adminId reason deleteUser emailOk now).db
          = (rejectUser db uid adminId reason deleteUser true now).db) ∧
    gradeLogbook true true false = { committed := true, status := 500 } ∧
    reviewComplaint true true false = { committed := true, status := 500 } ∧
    updateLeaveRequestStatus true true = { committed := true, status := 500 } := by
  refine ⟨?_, ?_, rfl, rfl, rfl⟩
  · intro db uid adminId now emailOk
    unfold approveUser
    cases db.find? (pendingMatch uid) <;> simp
  · intro db uid adminId now reason deleteUser emailOk
    unfold rejectUser
    cases db.find? (pendingMatch uid) <;> cases deleteUser <;> simp

/-! ### Claim C6 -/

/-- Counterexample to claim C6 as stated: with admins 1, 2, 3 and the
INSERT failing only for admin 2, admin 3 is never notified — a failure for
one admin does prevent the notifications for the remaining admins. -/
theorem fanout_loop_abort_counterexample :
    (sendNotificationToAdmin [1, 2, 3] (fun a => !(a == 2))).notified = [1] ∧
    3 ∉ (sendNotificationToAdmin [1, 2, 3] (fun a => !(a == 2))).notified := by
  decide

/-- Claim C6 (corrected): the fan-out loop persists notifications for
exactly the admins before the first failing INSERT (a failure aborts the
rest of the loop — iterations are not isolated and errors are not collected
per admin), and the single function-level try/catch means no error is ever
rethrown to the caller. -/
theorem fanout_loop_behavior_amended :
    ∀ (admins : List Nat) (ok : Nat → Bool),
      (sendNotificationToAdmin admins ok).notified = admins.takeWhile ok ∧
      (sendNotificationToAdmin admins ok).thrown = false := by
  intro admins ok
  exact ⟨notifyAdminsLoop_notified_eq_takeWhile admins ok, rfl⟩

/-! ### Claim C7 -/

/-- Counterexample to claim C7 as stated: submitting the same (user, week,
year) logbook twice makes the second call fail with HTTP 400, not 409. -/
theorem logbook_duplicate_status_counterexample :
    (submitLogbookReport
      (submitLogbookReport [] 1 7 2024 true false true).db
      1 7 2024 true false true).status = 400 := by
  decide

/-- Claim C7 (corrected): a second logbook submission for the same
(user, ISO week, year) key is rejected with HTTP 400 ("You have already
submitted a report for this week."), inserts no second row, and leaves the
first submission's row untouched. -/
theorem logbook_duplicate_rejected_amended :
    ∀ (db : List LogbookRow) (userId week year : Nat),
      (submitLogbookReport (submitLogbookReport db userId week year true false true).db
          userId week year true false true).status = 400 ∧
      (submitLogbookReport (submitLogbookReport db userId week year true false true).db
          userId week year true false true).db
        = (submitLogbookReport db userId week year true false true).db := by
  intro db u w y
  by_cases h : db.any (fun r => r.user_id == u && r.week == w && r.year == y)
  · simp [submitLogbookReport, h]
  · simp [submitLogbookReport, h]

/-- The broadcast notification loop never touches the `messages` table. -/
theorem broadcastNotifLoop_messages (interns : List Nat) :
    ∀ (db : BroadcastDb) (senderId msgId : Nat) (title : String) (idx : Nat)
      (stmtOk : Nat → Bool),
      (broadcastNotifLoop db senderId msgId title interns idx stmtOk).1.messages
        = db.messages := by
  induction interns with
  | nil => intro db s m t idx ok; rfl
  | cons i rest ih =>
      intro db s m t idx ok
      by_cases h : ok idx
      · simp only [broadcastNotifLoop, h, if_true]
        exact ih _ s m t (idx + 1) ok
      · simp [broadcastNotifLoop, h]

/-- When every INSERT succeeds, the broadcast loop reports success and adds
one notification row per intern. -/
theorem broadcastNotifLoop_all_ok (interns : List Nat) :
    ∀ (db : BroadcastDb) (senderId msgId : Nat) (title : String) (idx : Nat)
      (stmtOk : Nat → Bool), (∀ n, stmtOk n = true) →
      (broadcastNotifLoop db senderId msgId title interns idx stmtOk).2 = true ∧
      (broadcastNotifLoop db senderId msgId title interns idx stmtOk).1.notifications.length
        = db.notifications.length + interns.length := by
  induction interns with
  | nil => intro db s m t idx ok _; exact ⟨rfl, rfl⟩
  | cons i rest ih =>
      intro db s m t idx ok hok
      simp only [broadcastNotifLoop, hok idx, if_true]
      have h := ih { db with notifications :=
        db.notifications ++ [broadcastNotifRow i s m t] } s m t (idx + 1) ok hok
      refine ⟨h.1, ?_⟩
      rw [h.2]
      simp
      omega

/-! ### Claim C1 -/

/-- Counterexample to claim C1 as stated: broadcasting to interns 1 and 2
with the second notification INSERT failing yields a 500 response, yet the
Message row and the first intern's Notification row remain persisted — the
route has no transaction and the step is not all-or-nothing. -/
theorem broadcast_partial_fanout_persists_counterexample :
    (sendNotificationBroadcast { messages := [], notifications := [] }
        "broadcast_message" "t" "b" 7 [1, 2] (fun n => !(n == 2))).2 = 500 ∧
    (sendNotificationBroadcast { messages := [], notifications := [] }
        "broadcast_message" "t" "b" 7 [1, 2] (fun n => !(n == 2))).1.messages.length = 1 ∧
    (sendNotificationBroadcast { messages := [], notifications := [] }
        "broadcast_message" "t" "b" 7 [1, 2] (fun n => !(n == 2))).1.notifications.length
      = 1 := by
  decide

/-- Claim C1 (corrected): the broadcast route runs without a transaction —
every INSERT autocommits.  When all inserts succeed it persists exactly one
Message row and one Notification row per intern and reports success; and
whenever the Message INSERT succeeds, the Message row stays persisted
regardless of later notification-INSERT failures (so a mid-loop failure
leaves the Message and the already-inserted Notifications in place). -/
theorem broadcast_no_transaction_amended :
    ∀ (db : BroadcastDb) (title body : String) (senderId : Nat)
      (interns : List Nat) (stmtOk : Nat → Bool),
      title ≠ "" → body ≠ "" →
      ((∀ n, stmtOk n = true) →
        (sendNotificationBroadcast db "broadcast_message" title body senderId
            interns stmtOk).2 = 200 ∧
        (sendNotificationBroadcast db "broadcast_message" title body senderId
            interns stmtOk).1.messages.length = db.messages.length + 1 ∧
        (sendNotificationBroadcast db "broadcast_message" title body senderId
            interns stmtOk).1.notifications.length
          = db.notifications.length + interns.length) ∧
      (stmtOk 0 = true →
        (sendNotificationBroadcast db "broadcast_message" title body senderId
            interns stmtOk).1.messages.length = db.messages.length + 1) := by
  intro db title body senderId interns stmtOk ht hb
  have hact : (("broadcast_message" : String) != "broadcast_message") = false := by
    decide
  have htb : (title == "" || body == "") = false := by
    simp [ht, hb]
  constructor
  · intro hok
    have hmsg := broadcastNotifLoop_messages interns
      { db with messages := db.messages ++
          [{ id := db.messages.length + 1, title := title, body := body,
             created_by := senderId }] } senderId (db.messages.length + 1) title 1 stmtOk
    have hall := broadcastNotifLoop_all_ok interns
      { db with messages := db.messages ++
          [{ id := db.messages.length + 1, title := title, body := body,
             created_by := senderId }] } senderId (db.messages.length + 1) title 1 stmtOk hok
    simp only [sendNotificationBroadcast, hact, htb, hok 0, Bool.false_eq_true,
      eq_self_iff_true, if_false, if_true, hall.1]
    refine ⟨trivial, ?_, ?_⟩
    · rw [hmsg]; simp
    · exact hall.2
  · intro hok0
    have hmsg := broadcastNotifLoop_messages interns
      { db with messages := db.messages ++
          [{ id := db.messages.length + 1, title := title, body := body,
             created_by := senderId }] } senderId (db.messages.length + 1) title 1 stmtOk
    simp only [sendNotificationBroadcast, hact, htb, hok0, Bool.false_eq_true,
      eq_self_iff_true, if_false, if_true]
    by_cases hloop : (broadcastNotifLoop
        { db with messages := db.messages ++
            [{ id := db.messages.length + 1, title := title, body := body,
               created_by := senderId }] } senderId (db.messages.length + 1) title
          interns 1 stmtOk).2
    · simp only [hloop, eq_self_iff_true, if_true]
      rw [hmsg]
      simp
    · simp only [hloop, Bool.false_eq_true, if_false]
      rw [hmsg]
      simp

/-- Witness for the amended claim C1: a concrete all-success broadcast to
three interns produces a 200 response, one Message row and three
Notification rows. -/
theorem broadcast_no_transaction_amended_witness :
    (sendNotificationBroadcast { messages := [], notifications := [] }
        "broadcast_message" "t" "b" 7 [1, 2, 3] (fun _ => true)).2 = 200 ∧
    (sendNotificationBroadcast { messages := [], notifications := [] }
        "broadcast_message" "t" "b" 7 [1, 2, 3] (fun _ => true)).1.messages.length = 1 ∧
    (sendNotificationBroadcast { messages := [], notifications := [] }
        "broadcast_message" "t" "b" 7 [1, 2, 3] (fun _ => true)).1.notifications.length
      = 3 :=
  (broadcast_no_transaction_amended { messages := [], notifications := [] }
    "t" "b" 7 [1, 2, 3] (fun _ => true) (by decide) (by decide)).1 (fun _ => rfl)

/-- If no row with this user id is pending, the guard SELECT of the
approve/reject routes finds nothing. -/
theorem find?_pending_none_of_all {db : List UserRec} {uid : Nat}
    (h : ∀ u ∈ db, u.user_id = uid → u.approval_status ≠ "pending") :
    db.find? (pendingMatch uid) = none := by
  rw [List.find?_eq_none]
  intro u hu
  simp only [pendingMatch, Bool.and_eq_true, beq_iff_eq, not_and]
  exact fun hid => h u hu hid

/-- After a successful approve, no row with this user id is pending. -/
theorem find?_pending_none_after_approve (db : List UserRec)
    (uid adminId : Nat) (now : Nat) :
    (db.map (fun u =>
        if u.user_id == uid then
          { u with is_approved := true
                   approval_status := "approved"
                   approved_by := some adminId
                   approved_at := some now }
        else u)).find? (pendingMatch uid) = none := by
  rw [List.find?_eq_none]
  intro v hv
  rcases List.mem_map.1 hv with ⟨w, _, rfl⟩
  by_cases hid : w.user_id = uid
  · simp [pendingMatch, hid]
  · simp [pendingMatch, hid]

/-- After a successful soft reject, no row with this user id is pending. -/
theorem find?_pending_none_after_soft_reject (db : List UserRec)
    (uid adminId : Nat) (reason : Option String) (now : Nat) :
    (db.map (fun u =>
        if u.user_id == uid then
          { u with approval_status := "rejected"
                   rejection_reason := reason
                   approved_by := some adminId
                   approved_at := some now }
        else u)).find? (pendingMatch uid) = none := by
  rw [List.find?_eq_none]
  intro v hv
  rcases List.mem_map.1 hv with ⟨w, _, rfl⟩
  by_cases hid : w.user_id = uid
  · simp [pendingMatch, hid]
  · simp [pendingMatch, hid]

/-- After a hard reject (delete), no row with this user id remains at all. -/
theorem find?_pending_none_after_delete (db : List UserRec) (uid : Nat) :
    (db.filter (fun u => !(u.user_id == uid))).find? (pendingMatch uid) = none := by
  rw [List.find?_eq_none]
  intro v hv
  have hmem := List.mem_filter.1 hv
  simp only [Bool.not_eq_true'] at hmem
  simp [pendingMatch, hmem.2]

/-! ### Claim C4 -/

/-- Claim C4 (confirmed): approving or rejecting an intern whose
`approval_status` is not `'pending'` responds 404 with the table unchanged
and no email attempted; and after a successful approve (or reject), a
second approve (or reject) of the same user responds 404, changes nothing,
and attempts no email — so at most one outcome email is attempted across
the two calls. -/
theorem approve_reject_single_shot :
    ∀ (db : List UserRec) (uid adminId : Nat) (reason : Option String)
      (deleteUser emailOk : Bool) (now now2 : Nat),
      ((∀ u ∈ db, u.user_id = uid → u.approval_status ≠ "pending") →
        approveUser db uid adminId emailOk now
          = { db := db, status := 404, emailAttempted := false, emailSent := false } ∧
        rejectUser db uid adminId reason deleteUser emailOk now
          = { db := db, status := 404, emailAttempted := false, emailSent := false }) ∧
      ((approveUser db uid adminId emailOk now).status = 200 →
        (approveUser db uid adminId emailOk now).emailAttempted = true ∧
        approveUser (approveUser db uid adminId emailOk now).db uid adminId emailOk now2
          = { db := (approveUser db uid adminId emailOk now).db, status := 404,
              emailAttempted := false, emailSent := false }) ∧
      ((rejectUser db uid adminId reason deleteUser emailOk now).status = 200 →
        (rejectUser db uid adminId reason deleteUser emailOk now).emailAttempted = true ∧
        rejectUser (rejectUser db uid adminId reason deleteUser emailOk now).db uid adminId
            reason deleteUser emailOk now2
          = { db := (rejectUser db uid adminId reason deleteUser emailOk now).db,
              status := 404, emailAttempted := false, emailSent := false }) := by
  intro db uid adminId reason deleteUser emailOk now now2
  refine ⟨?_, ?_, ?_⟩
  · intro h
    have hn := find?_pending_none_of_all h
    constructor
    · simp [approveUser, hn]
    · simp [rejectUser, hn]
  · intro h200
    cases hfind : db.find? (pendingMatch uid) with
    | none => simp [approveUser, hfind] at h200
    | some u =>
        have happ : approveUser db uid adminId emailOk now
            = { db := db.map (fun v =>
                  if v.user_id == uid then
                    { v with is_approved := true
                             approval_status := "approved"
                             approved_by := some adminId
                             approved_at := some now }
                  else v)
                status := 200, emailAttempted := true, emailSent := emailOk } := by
          simp [approveUser, hfind]
        rw [happ]
        refine ⟨rfl, ?_⟩
        unfold approveUser
        rw [find?_pending_none_after_approve]
  · intro h200
    cases hfind : db.find? (pendingMatch uid) with
    | none => simp [rejectUser, hfind] at h200
    | some u =>
        cases deleteUser with
        | true =>
            have hrej : rejectUser db uid adminId reason true emailOk now
                = { db := db.filter (fun v => !(v.user_id == uid))
                    status := 200, emailAttempted := true, emailSent := emailOk } := by
              simp [rejectUser, hfind]
            rw [hrej]
            refine ⟨rfl, ?_⟩
            unfold rejectUser
            rw [find?_pending_none_after_delete]
        | false =>
            have hrej : rejectUser db uid adminId reason false emailOk now
                = { db := db.map (fun v =>
                      if v.user_id == uid then
                        { v with approval_status := "rejected"
                                 rejection_reason := reason
                                 approved_by := some adminId
                                 approved_at := some now }
                      else v)
                    status := 200, emailAttempted := true, emailSent := emailOk } := by
              simp [rejectUser, hfind]
            rw [hrej]
            refine ⟨rfl, ?_⟩
            unfold rejectUser
            rw [find?_pending_none_after_soft_reject]

/-- Witness for claim C4: a concrete pending intern is approved once; the
second approve call responds 404, attempts no email, and leaves the table
as the first call left it. -/
theorem approve_reject_single_shot_witness :
    approveUser (approveUser [registeredUser 1 "e@x" "pw"] 1 9 true 0).db 1 9 true 1
      = { db := (approveUser [registeredUser 1 "e@x" "pw"] 1 9 true 0).db,
          status := 404, emailAttempted := false, emailSent := false } :=
  ((approve_reject_single_shot [registeredUser 1 "e@x" "pw"] 1 9 none false true 0 1).2.1
    (by decide)).2

/-- In a table whose `user_id` column is unique (its primary key), two rows
with the same id are the same row. -/
theorem pairwise_user_id_unique {l : List UserRec}
    (h : l.Pairwise (fun a b => a.user_id ≠ b.user_id)) :
    ∀ a ∈ l, ∀ b ∈ l, a.user_id = b.user_id → a = b := by
  induction l with
  | nil => intro a ha; exact absurd ha (List.not_mem_nil a)
  | cons x xs ih =>
      intro a ha b hb heq
      rcases List.mem_cons.1 ha with rfl | ha'
      · rcases List.mem_cons.1 hb with rfl | hb'
        · rfl
        · exact absurd heq ((List.pairwise_cons.1 h).1 b hb')
      · rcases List.mem_cons.1 hb with rfl | hb'
        · exact (((List.pairwise_cons.1 h).1 a ha') heq.symm).elim
        · exact ih (List.pairwise_cons.1 h).2 a ha' b hb' heq

/-! ### Claim C5 -/

/-- Claim C5 (confirmed): registration creates the intern unapproved and
pending, which satisfies `is_approved == true ⇔ approval_status ==
'approved'`; the approve transition preserves the invariant on every row;
and the reject transition (soft or hard) preserves it on every row, given
that `user_id` is unique in the table (its primary key). -/
theorem approval_invariant_preserved :
    ∀ (db : List UserRec) (uid adminId : Nat) (reason : Option String)
      (deleteUser emailOk : Bool) (now : Nat) (email pw : String),
      approvalInvariant (registeredUser uid email pw) ∧
      ((∀ u ∈ db, approvalInvariant u) →
        ∀ v ∈ (approveUser db uid adminId emailOk now).db, approvalInvariant v) ∧
      (db.Pairwise (fun a b => a.user_id ≠ b.user_id) →
        (∀ u ∈ db, approvalInvariant u) →
        ∀ v ∈ (rejectUser db uid adminId reason deleteUser emailOk now).db,
          approvalInvariant v) := by
  intro db uid adminId reason deleteUser emailOk now email pw
  refine ⟨?_, ?_, ?_⟩
  · simp [approvalInvariant, registeredUser]
  · intro hinv
    cases hfind : db.find? (pendingMatch uid) with
    | none =>
        intro v hv
        unfold approveUser at hv
        rw [hfind] at hv
        exact hinv v hv
    | some u =>
        intro v hv
        unfold approveUser at hv
        rw [hfind] at hv
        rcases List.mem_map.1 hv with ⟨w, hw, rfl⟩
        by_cases hid : w.user_id = uid
        · simp [approvalInvariant, hid]
        · simp only [hid, beq_iff_eq, if_false]
          simpa [hid] using hinv w hw
  · intro hpair hinv
    cases hfind : db.find? (pendingMatch uid) with
    | none =>
        intro v hv
        unfold rejectUser at hv
        rw [hfind] at hv
        exact hinv v hv
    | some u =>
        have hu_mem : u ∈ db := List.mem_of_find?_eq_some hfind
        have hu_p : pendingMatch uid u = true := List.find?_some hfind
        have hu_id : u.user_id = uid := by
          simp only [pendingMatch, Bool.and_eq_true, beq_iff_eq] at hu_p
          exact hu_p.1
        have hu_st : u.approval_status = "pending" := by
          simp only [pendingMatch, Bool.and_eq_true, beq_iff_eq] at hu_p
          exact hu_p.2
        intro v hv
        unfold rejectUser at hv
        rw [hfind] at hv
        cases deleteUser with
        | true =>
            simp only [if_true] at hv
            exact hinv v (List.mem_of_mem_filter hv)
        | false =>
            simp only [Bool.false_eq_true, if_false] at hv
            rcases List.mem_map.1 hv with ⟨w, hw, rfl⟩
            by_cases hid : w.user_id = uid
            · have hwu : w = u :=
                pairwise_user_id_unique hpair w hw u hu_mem (by rw [hid, hu_id])
              have hwinv := hinv w hw
              have hfalse : w.is_approved = false := by
                rcases Bool.eq_false_or_eq_true w.is_approved with hb | hb
                · exact absurd (hwinv.mp hb) (by rw [hwu, hu_st]; decide)
                · exact hb
              simp [approvalInvariant, hid, hfalse]
            · simp only [hid, beq_iff_eq, if_false]
              simpa [hid] using hinv w hw

/-- Witness for claim C5: the concrete row produced by soft-rejecting a
freshly registered intern still satisfies the invariant. -/
theorem approval_invariant_preserved_witness :
    approvalInvariant
      { user_id := 1, email := "e@x", password := "pw", validHash := true,
        is_approved := false, approval_status := "rejected",
        rejection_reason := some "r", approved_by := some 9,
        approved_at := some 0 } :=
  (approval_invariant_preserved [registeredUser 1 "e@x" "pw"] 1 9 (some "r")
      false true 0 "e@x" "pw").2.2 (by decide) (by decide) _ (by decide)

/-- Ceiling division bound: `total ≤ ceil(total/limit) * limit` for
`limit ≥ 1`, so a page beyond `total_pages` starts past the last row. -/
theorem le_jsCeil_mul (a b : Nat) (hb : 1 ≤ b) : a ≤ jsCeil a b * b := by
  by_contra hlt
  push_neg at hlt
  have h1 : (jsCeil a b + 1) * b ≤ a + b - 1 := by
    have hstep : jsCeil a b * b + b ≤ a + b - 1 := by omega
    calc (jsCeil a b + 1) * b = jsCeil a b * b + b := by ring
    _ ≤ a + b - 1 := hstep
  have h2 : jsCeil a b + 1 ≤ (a + b - 1) / b :=
    (Nat.le_div_iff_mul_le hb).2 h1
  have h3 : (a + b - 1) / b = jsCeil a b := rfl
  omega

/-! ### Claim C8 -/

/-- Counterexample to claim C8 as stated: `GET /api/superadmin/accounts`
with an empty user table reports `total_pages = max(1, ceil(0/10)) = 1`,
not `ceil(total/limit) = 0` (and returns the count under `total_items`,
not `total_count`). -/
theorem accounts_total_pages_counterexample :
    (getAccounts ([] : List Nat) 1 10).total_pages
      ≠ jsCeil (getAccounts ([] : List Nat) 1 10).total_items 10 := by
  decide

/-- Claim C8 (corrected): the admin paginated endpoints of the
`view-interns` shape return `total_pages = ceil(total_count / limit)` and
an out-of-range page yields an empty row set with `total_count` unchanged;
`GET /api/superadmin/accounts` instead returns
`total_pages = max(1, ceil(total / limit))` with the count under
`total_items`, and likewise returns empty rows past the last page. -/
theorem pagination_amended :
    ∀ (interns users : List Nat) (page limit : Nat), 1 ≤ limit → 1 ≤ page →
      (viewInterns interns page limit).total_pages = jsCeil interns.length limit ∧
      (viewInterns interns page limit).total_count = interns.length ∧
      ((viewInterns interns page limit).total_pages < page →
        (viewInterns interns page limit).rows = []) ∧
      (getAccounts users page limit).total_pages
        = max 1 (jsCeil users.length limit) ∧
      (getAccounts users page limit).total_items = users.length ∧
      ((getAccounts users page limit).total_pages < page →
        (getAccounts users page limit).users = []) := by
  intro interns users page limit hl hp
  refine ⟨rfl, rfl, ?_, rfl, rfl, ?_⟩
  · intro hlt
    simp only [viewInterns] at hlt ⊢
    have h1 : interns.length ≤ jsCeil interns.length limit * limit :=
      le_jsCeil_mul _ _ hl
    have h2 : jsCeil interns.length limit * limit ≤ (page - 1) * limit :=
      Nat.mul_le_mul_right _ (by omega)
    rw [List.drop_eq_nil_of_le (by omega)]
    simp
  · intro hlt
    simp only [getAccounts] at hlt ⊢
    have h1 : users.length ≤ jsCeil users.length limit * limit :=
      le_jsCeil_mul _ _ hl
    have h2 : jsCeil users.length limit * limit ≤ (page - 1) * limit :=
      Nat.mul_le_mul_right _ (by omega)
    rw [List.drop_eq_nil_of_le (by omega)]
    simp

/-- Witness for the amended claim C8: 23 rows with limit 10 give
`total_pages = 3` and page 5 returns zero rows with `total_count` still
the full row count. -/
theorem pagination_amended_witness :
    (viewInterns (List.range 23) 5 10).total_pages = 3 ∧
    (viewInterns (List.range 23) 5 10).rows = ([] : List Nat) ∧
    (viewInterns (List.range 23) 5 10).total_count = (List.range 23).length :=
  ⟨by
    have h := (pagination_amended (List.range 23) [] 5 10 (by decide) (by decide)).1
    rw [h]; decide,
   (pagination_amended (List.range 23) [] 5 10 (by decide) (by decide)).2.2.1
     (by decide),
   (pagination_amended (List.range 23) [] 5 10 (by decide) (by decide)).2.1⟩

/-! ### Claim C9 -/

/-- Claim C9 (confirmed): when no admin row matches the email and the
matched intern row has a valid hash format and a verifying password, a
soft-rejected intern receives the same distinguished outcome as a pending
one — 403 with body flag `pending_approval` and no session; a fully
approved intern receives a session with role `'intern'`; and a session is
created only when `is_approved` is true and `approval_status` is exactly
`'approved'`. -/
theorem login_approval_gating :
    ∀ (admins : List AdminRec) (users : List UserRec)
      (email passwords : String) (u : UserRec),
      admins.find? (fun a => a.email == email) = none →
      users.find? (fun x => x.email == email) = some u →
      u.validHash = true →
      u.password = passwords →
      ((u.approval_status = "rejected" →
        login admins users email passwords
          = { status := 403, session := none,
              statusFlag := some "pending_approval" }) ∧
       (u.is_approved = true → u.approval_status = "approved" →
        login admins users email passwords
          = { status := 200,
              session := some { user_id := u.user_id, role := "intern" },
              statusFlag := none }) ∧
       (∀ s, (login admins users email passwords).session = some s →
          s.role = "intern" ∧ u.is_approved = true ∧
          u.approval_status = "approved")) := by
  intro admins users email passwords u hadm husr hvh hpw
  have hbase : login admins users email passwords
      = internLoginBranch users email passwords := by
    unfold login
    rw [hadm]
  have hib : internLoginBranch users email passwords
      = if !u.is_approved || u.approval_status != "approved" then
          { status := 403, session := none,
            statusFlag := some "pending_approval" }
        else
          { status := 200,
            session := some { user_id := u.user_id, role := "intern" },
            statusFlag := none } := by
    unfold internLoginBranch
    rw [husr]
    simp [hvh, hpw]
  refine ⟨?_, ?_, ?_⟩
  · intro hrej
    rw [hbase, hib]
    simp [hrej]
  · intro happ hst
    rw [hbase, hib]
    simp [happ, hst]
  · intro s hs
    rw [hbase, hib] at hs
    by_cases hc : (!u.is_approved || u.approval_status != "approved") = true
    · rw [if_pos hc] at hs
      simp at hs
    · rw [if_neg hc] at hs
      simp only [Bool.or_eq_true, Bool.not_eq_true', bne_iff_ne, ne_eq] at hc
      push_neg at hc
      simp only [Option.some.injEq] at hs
      refine ⟨?_, ?_, hc.2⟩
      · rw [← hs]
      · cases hb : u.is_approved with
        | true => rfl
        | false => exact absurd hb hc.1

/-- Witness for claim C9: a concrete soft-rejected intern logging in with
correct credentials gets 403 with the `pending_approval` flag and no
session. -/
theorem login_approval_gating_witness :
    login ([] : List AdminRec)
      [{ user_id := 1, email := "e@x", password := "pw", validHash := true,
         is_approved := false, approval_status := "rejected",
         rejection_reason := some "r", approved_by := some 9,
         approved_at := some 0 }] "e@x" "pw"
      = { status := 403, session := none,
          statusFlag := some "pending_approval" } :=
  (login_approval_gating ([] : List AdminRec)
    [{ user_id := 1, email := "e@x", password := "pw", validHash := true,
       is_approved := false, approval_status := "rejected",
       rejection_reason := some "r", approved_by := some 9,
       approved_at := some 0 }] "e@x" "pw"
    { user_id := 1, email := "e@x", password := "pw", validHash := true,
      is_approved := false, approval_status := "rejected",
      rejection_reason := some "r", approved_by := some 9,
      approved_at := some 0 }
    (by decide) (by decide) (by decide) (by decide)).1 rfl

/-- Zipping a mapped list with its source pairs each image with its
preimage. -/
theorem zip_map_self {α : Type} (f : α → α) (l : List α) :
    (l.map f).zip l = l.map (fun x => (f x, x)) := by
  have h := List.zip_map' f id l
  simpa using h

/-- Each pair of the zip of a mapped list with its source satisfies
`p.1 = f p.2`. -/
theorem mem_zip_map_self {α : Type} (f : α → α) (l : List α) (p : α × α)
    (hp : p ∈ (l.map f).zip l) : p.1 = f p.2 := by
  rw [zip_map_self] at hp
  rcases List.mem_map.1 hp with ⟨x, _, rfl⟩
  rfl

/-- Each pair of the zip of a list with itself is diagonal. -/
theorem mem_zip_self {α : Type} (l : List α) (p : α × α)
    (hp : p ∈ l.zip l) : p.1 = p.2 := by
  have h := mem_zip_map_self id l p (by simpa using hp)
  simpa using h

/-! ### Claim C10 -/

/-- Claim C10 (confirmed): every mark-as-read operation (single for interns,
single for admins, mark-all-read for interns) leaves each notification row
either unchanged or — only when the row's recipient id equals the caller's
session id, its recipient role matches the caller's role, and (for the
single ops) its id is the requested one — with `is_read` set to true; when
no row matches the caller the single ops respond 404 with the table
unchanged; and no operation ever turns `is_read` from true back to false. -/
theorem mark_read_frame_and_authorization :
    ∀ (db : List NotifRow) (nid userId adminId : Nat),
      (∀ p ∈ (markUserNotificationRead db nid userId).1.zip db,
        p.1 = p.2 ∨
        (p.2.recipient_id = userId ∧ p.2.recipient_role = "user" ∧
         p.2.notification_id = nid ∧ p.1 = { p.2 with is_read := true })) ∧
      (∀ p ∈ (markAdminNotificationRead db nid adminId).1.zip db,
        p.1 = p.2 ∨
        (p.2.recipient_id = adminId ∧ p.2.recipient_role = "admin" ∧
         p.2.notification_id = nid ∧ p.1 = { p.2 with is_read := true })) ∧
      (∀ p ∈ (markAllUserNotificationsRead db userId).zip db,
        p.1 = p.2 ∨
        (p.2.recipient_id = userId ∧ p.2.recipient_role = "user" ∧
         p.1 = { p.2 with is_read := true })) ∧
      ((∀ n ∈ db, notifMatch nid userId "user" n = false) →
        markUserNotificationRead db nid userId = (db, 404)) ∧
      ((∀ n ∈ db, notifMatch nid adminId "admin" n = false) →
        markAdminNotificationRead db nid adminId = (db, 404)) ∧
      (∀ p ∈ (markUserNotificationRead db nid userId).1.zip db,
        p.2.is_read = true → p.1.is_read = true) ∧
      (∀ p ∈ (markAdminNotificationRead db nid adminId).1.zip db,
        p.2.is_read = true → p.1.is_read = true) ∧
      (∀ p ∈ (markAllUserNotificationsRead db userId).zip db,
        p.2.is_read = true → p.1.is_read = true) := by
  intro db nid userId adminId
  have frameGen : ∀ (callerId : Nat) (role : String) (p : NotifRow × NotifRow),
      p ∈ (markNotificationRead db nid callerId role).1.zip db →
      p.1 = p.2 ∨
      (p.2.recipient_id = callerId ∧ p.2.recipient_role = role ∧
       p.2.notification_id = nid ∧ p.1 = { p.2 with is_read := true }) := by
    intro callerId role p hp
    unfold markNotificationRead at hp
    by_cases hc : (db.countP (notifMatch nid callerId role) == 0) = true
    · rw [if_pos hc] at hp
      exact Or.inl (mem_zip_self db p hp)
    · rw [if_neg hc] at hp
      have h1 := mem_zip_map_self _ db p hp
      by_cases hm : notifMatch nid callerId role p.2 = true
      · have hm' := hm
        simp only [notifMatch, Bool.and_eq_true, beq_iff_eq] at hm'
        exact Or.inr ⟨hm'.1.2, hm'.2, hm'.1.1, by rw [h1, if_pos hm]⟩
      · exact Or.inl (by rw [h1, if_neg hm])
  have allFrame : ∀ p ∈ (markAllUserNotificationsRead db userId).zip db,
      p.1 = p.2 ∨
      (p.2.recipient_id = userId ∧ p.2.recipient_role = "user" ∧
       p.1 = { p.2 with is_read := true }) := by
    intro p hp
    unfold markAllUserNotificationsRead at hp
    have h1 := mem_zip_map_self _ db p hp
    by_cases hm : (p.2.recipient_id == userId && p.2.recipient_role == "user"
        && p.2.is_read == false) = true
    · have hm' := hm
      simp only [Bool.and_eq_true, beq_iff_eq] at hm'
      exact Or.inr ⟨hm'.1.1, hm'.1.2, by rw [h1, if_pos hm]⟩
    · exact Or.inl (by rw [h1, if_neg hm])
  have notFoundGen : ∀ (callerId : Nat) (role : String),
      (∀ n ∈ db, notifMatch nid callerId role n = false) →
      markNotificationRead db nid callerId role = (db, 404) := by
    intro callerId role hall
    have hc : db.countP (notifMatch nid callerId role) = 0 := by
      rw [List.countP_eq_zero]
      intro a ha
      simp [hall a ha]
    simp [markNotificationRead, hc]
  refine ⟨fun p hp => frameGen userId "user" p hp,
          fun p hp => frameGen adminId "admin" p hp,
          allFrame,
          notFoundGen userId "user",
          notFoundGen adminId "admin",
          ?_, ?_, ?_⟩
  · intro p hp hread
    rcases frameGen userId "user" p hp with h | h
    · rw [h]; exact hread
    · simp [h.2.2.2]
  · intro p hp hread
    rcases frameGen adminId "admin" p hp with h | h
    · rw [h]; exact hread
    · simp [h.2.2.2]
  · intro p hp hread
    rcases allFrame p hp with h | h
    · rw [h]; exact hread
    · simp [h.2.2]

/-- Witness for claim C10: a caller who is not the recipient of the only
notification gets 404 and the table is unchanged. -/
theorem mark_read_frame_and_authorization_witness :
    markUserNotificationRead
      [{ notification_id := 1, recipient_id := 5, recipient_role := "user",
         is_read := false }] 1 6
      = ([{ notification_id := 1, recipient_id := 5, recipient_role := "user",
            is_read := false }], 404) :=
  (mark_read_frame_and_authorization
    [{ notification_id := 1, recipient_id := 5, recipient_role := "user",
       is_read := false }] 1 6 0).2.2.2.1 (by decide)

end LSMS
